import Mathlib

/-! Verification of the natural-language-to-CQL code generator implemented by
`parse_natural_language_query` in `src/backend/main.py`.  The Python function
is shallowly embedded: strings are Lean `String`s, each `re.search` call is
modelled by an explicit leftmost-match scanner over `List Char`, and every
f-string template is transcribed as the concatenation of its literal chunks
and substituted parameters. -/

namespace CassandraGen

set_option maxRecDepth 16384

/-- Python `\w` over the character sets this service handles: letters, digits
and the underscore. -/
def isWordChar (c : Char) : Bool := c.isAlphanum || c == '_'

/-- Python `\s`: whitespace characters. -/
def isSpaceChar (c : Char) : Bool :=
  c == ' ' || c == '\t' || c == '\n' || c == '\r' || c == '\x0b' || c == '\x0c'

/-- Python `\d`. -/
def isDigitChar (c : Char) : Bool := c.isDigit

/-- Embedding of Python `str.lower` (case folding, per character). -/
def lowerStr (s : String) : String := String.mk (s.data.map Char.toLower)

/-- Embedding of Python `str.strip`: drop leading and trailing whitespace. -/
def stripStr (s : String) : String :=
  String.mk (((s.data.dropWhile isSpaceChar).reverse.dropWhile isSpaceChar).reverse)

/-- Decidable contiguous-substring test on character lists. -/
def hasSub (pat : List Char) : List Char → Bool
  | [] => pat.isEmpty
  | c :: cs => pat.isPrefixOf (c :: cs) || hasSub pat cs

/-- Python `pat in hay` on strings. -/
def substr (hay pat : String) : Bool := hasSub pat.data hay.data

/-- Value of a digit run, as computed by Python `int(...)` on `group(1)`. -/
def digitsToNat (l : List Char) : Nat :=
  l.foldl (fun n c => n * 10 + (c.toNat - '0'.toNat)) 0

/-- One attempt to match `kw` + `\s+` + a nonempty run of `cls` characters at
the start of `l`; returns the captured run (the regex group).  Greedy runs are
maximal: backtracking cannot shorten them because a `cls` character can never
stand where the pattern next demands a non-`cls` one. -/
def kwMatchHere (kw : List Char) (cls : Char → Bool) (l : List Char) : Option (List Char) :=
  if kw.isPrefixOf l then
    let rest := l.drop kw.length
    let sps := rest.takeWhile isSpaceChar
    let afterSps := rest.dropWhile isSpaceChar
    let w := afterSps.takeWhile cls
    if sps.isEmpty || w.isEmpty then none else some w
  else none

/-- Embedding of `re.search` for a pattern of the shape `kw\s+(C+)`: every
start position is tried left to right and the group of the leftmost match is
returned. -/
def kwSearch (kw : List Char) (cls : Char → Bool) : List Char → Option (List Char)
  | [] => none
  | c :: cs =>
    match kwMatchHere kw cls (c :: cs) with
    | some w => some w
    | none => kwSearch kw cls cs

/-- Embedding of `re.search` for `kw1\s+(C+)|kw2\s+(C+)`: at each position the
first alternative is tried before the second, leftmost position wins. -/
def altSearch (kw1 kw2 : List Char) (cls : Char → Bool) : List Char → Option (List Char)
  | [] => none
  | c :: cs =>
    match kwMatchHere kw1 cls (c :: cs) with
    | some w => some w
    | none =>
      match kwMatchHere kw2 cls (c :: cs) with
      | some w => some w
      | none => altSearch kw1 kw2 cls cs

/-- Embedding of `re.search(r'(\d+)', ...)`: the leftmost maximal digit run. -/
def digitSearch : List Char → Option (List Char)
  | [] => none
  | c :: cs => if isDigitChar c then some ((c :: cs).takeWhile isDigitChar) else digitSearch cs

/-- One attempt of the pattern `(\d+)\s+rows` at the current position. -/
def digitsRowsMatchHere (l : List Char) : Option (List Char) :=
  let d := l.takeWhile isDigitChar
  let rest := l.dropWhile isDigitChar
  let sps := rest.takeWhile isSpaceChar
  let afterSps := rest.dropWhile isSpaceChar
  if d.isEmpty || sps.isEmpty || !("rows".data.isPrefixOf afterSps) then none else some d

/-- Embedding of `re.search(r'(\d+)\s+rows', ...)`. -/
def digitsRowsSearch : List Char → Option (List Char)
  | [] => none
  | c :: cs =>
    match digitsRowsMatchHere (c :: cs) with
    | some d => some d
    | none => digitsRowsSearch cs

/-- Concatenation of template chunks (right-associated). -/
def cat : List String → String
  | [] => ""
  | s :: l => s ++ cat l
/-- Python template of the large-partition branch (main.py lines 172-311). -/
def largePartitionPython (keyspace table_name partition_key : String) (num_rows : Nat) : String :=
  let partition_value : String := "large_partition_user"
  cat [
    "\n# Connect to your Cassandra cluster\n# ... connection code will be included in the driver code template ...\n\nimport uuid\nimport random\nimport time\nfrom datetime import datetime, timedelta\n\n# Create a table with a simple schema for the large partition test\ncreate_table_query = \"\"\"\nCREATE TABLE IF NOT EXISTS ",
    keyspace,
    ".",
    table_name,
    " (\n    ",
    partition_key,
    " text,\n    activity_timestamp timestamp,\n    activity_type text,\n    details text,\n    PRIMARY KEY (",
    partition_key,
    ", activity_timestamp)\n) WITH CLUSTERING ORDER BY (activity_timestamp DESC)\n\"\"\"\nsession.execute(create_table_query)\nprint(f\"Table ",
    keyspace,
    ".",
    table_name,
    " created or verified successfully\")\n\n# Define activity types for random selection\nactivity_types = [\"login\", \"click\", \"view\", \"purchase\", \"logout\", \"scroll\", \"search\"]\ndetail_templates = [\n    \"Viewed product: \x7b\x7d\",\n    \"Clicked on: \x7b\x7d\",\n    \"Searched for: \x7b\x7d\",\n    \"Added to cart: \x7b\x7d\",\n    \"Purchased item: \x7b\x7d\",\n    \"Visited page: \x7b\x7d\"\n]\nproducts = [\"laptop\", \"phone\", \"headphones\", \"keyboard\", \"mouse\", \"monitor\", \"tablet\", \"camera\", \"speaker\", \"watch\"]\n\n# Use a fixed partition key value to ensure all rows go to same partition\npartition_value = \"large_partition_user\"\n\n# Prepare the insert statement for better performance\nprepared_stmt = session.prepare(\"\"\"\n    INSERT INTO ",
    keyspace,
    ".",
    table_name,
    " (",
    partition_key,
    ", activity_timestamp, activity_type, details)\n    VALUES (?, ?, ?, ?)\n\"\"\")\n\n# Track timing\nstart_time = time.time()\nbatch_size = 100  # Insert in batches for better performance\ntotal_batches = ",
    toString num_rows,
    " // batch_size + (1 if ",
    toString num_rows,
    " % batch_size != 0 else 0)\n\nprint(f\"Generating ",
    toString num_rows,
    " rows in the same partition ('",
    partition_value,
    "')...\")\nprint(f\"This will create a large partition to test partition size limitations.\")\n\nfor batch in range(total_batches):\n    # Show progress periodically\n    if batch % 10 == 0 or batch == total_batches - 1:\n        print(f\"Processing batch \x7bbatch+1\x7d/\x7btotal_batches\x7d (\x7b(batch+1)*100/total_batches:.1f\x7d%)\")\n    \n    batch_rows = min(batch_size, ",
    toString num_rows,
    " - batch * batch_size)\n    \n    # Process each row in the current batch\n    for i in range(batch_rows):\n        # Create a random timestamp in the past 30 days\n        random_minutes = random.randint(1, 30 * 24 * 60)  # 30 days in minutes\n        timestamp = datetime.now() - timedelta(minutes=random_minutes)\n        \n        # Generate random activity data\n        activity_type = random.choice(activity_types)\n        detail_template = random.choice(detail_templates)\n        detail = detail_template.format(random.choice(products))\n        \n        # Execute the prepared statement\n        session.execute(prepared_stmt, [partition_value, timestamp, activity_type, detail])\n    \n    # Small delay to avoid overwhelming the system\n    if batch < total_batches - 1:\n        time.sleep(0.01)\n\nelapsed_time = time.time() - start_time\nprint(f\"Successfully inserted ",
    toString num_rows,
    " rows into the same partition.\")\nprint(f\"All rows have '",
    partition_key,
    "' = '",
    partition_value,
    "'\")\nprint(f\"Total time: \x7belapsed_time:.2f\x7d seconds\")\n\n# Demonstrate proper querying techniques for large partitions\nprint(\"\\n--- Querying Large Partition ---\")\n\n# 1. BAD QUERY: Query all rows for the user (will be inefficient for large partitions)\nprint(\"\\n❌ PROBLEMATIC QUERY (accesses entire partition):\")\nquery_bad = f\"SELECT count(*) FROM ",
    keyspace,
    ".",
    table_name,
    " WHERE ",
    partition_key,
    " = ?\"\nprepared_bad = session.prepare(query_bad)\n\nstart_time = time.time()\nresult = session.execute(prepared_bad, [partition_value])\nend_time = time.time()\n\ncount = result.one().count\nprint(f\"  Retrieved \x7bcount\x7d rows in \x7bend_time - start_time:.4f\x7d seconds\")\n\n# 2. GOOD QUERY: Query with time slice constraints\nprint(\"\\n✅ BETTER QUERY (with time slice constraints):\")\n# Using a 1-hour time slice\nnow = datetime.now()\none_hour_ago = now - timedelta(hours=1)\n\nquery_good = f\"\"\"\nSELECT count(*) FROM ",
    keyspace,
    ".",
    table_name,
    " \nWHERE ",
    partition_key,
    " = ? \nAND activity_timestamp >= ? \nAND activity_timestamp < ?\n\"\"\"\nprepared_good = session.prepare(query_good)\n\nstart_time = time.time()\nresult = session.execute(prepared_good, [partition_value, one_hour_ago, now])\nend_time = time.time()\n\ncount = result.one().count\nprint(f\"  Retrieved \x7bcount\x7d rows in \x7bend_time - start_time:.4f\x7d seconds\")\nprint(f\"  (Time slice: past hour)\")\n\n# 3. Sample some data to show the contents\nprint(\"\\n📊 Sample data from the time slice:\")\nsample_query = f\"\"\"\nSELECT * FROM ",
    keyspace,
    ".",
    table_name,
    " \nWHERE ",
    partition_key,
    " = ? \nAND activity_timestamp >= ? \nAND activity_timestamp < ?\nLIMIT 5\n\"\"\"\nprepared_sample = session.prepare(sample_query)\n\nrows = session.execute(prepared_sample, [partition_value, one_hour_ago, now])\n\nfor i, row in enumerate(rows):\n    print(f\"\\n  Sample \x7bi+1\x7d:\")\n    print(f\"    ",
    partition_key,
    ": \x7brow.",
    partition_key,
    "\x7d\")\n    print(f\"    Timestamp: \x7brow.activity_timestamp\x7d\")\n    print(f\"    Activity: \x7brow.activity_type\x7d\")\n    print(f\"    Details: \x7brow.details\x7d\")\n\nprint(\"\\nTo query this large partition, use: SELECT * FROM ",
    keyspace,
    ".",
    table_name,
    " WHERE ",
    partition_key,
    " = '",
    partition_value,
    "';\")\n"]

/-- Python template of the LWT branch, insert form (main.py lines 330-453). -/
def lwtInsertPython (keyspace table_name : String) : String :=
  cat [
    "\n# Connect to your Cassandra cluster\n# ... connection code will be included in the driver code template ...\n\nimport uuid\nfrom datetime import datetime\n\n# Create the users table if it doesn't exist\ncreate_table_query = \"\"\"\nCREATE TABLE IF NOT EXISTS ",
    keyspace,
    ".",
    table_name,
    " (\n    username text PRIMARY KEY,\n    email text,\n    created_at timestamp\n)\n\"\"\"\nsession.execute(create_table_query)\nprint(f\"Table ",
    keyspace,
    ".",
    table_name,
    " created or verified successfully\")\n\n# Clear any existing data for our test users to ensure clean results\nsession.execute(f\"DELETE FROM ",
    keyspace,
    ".",
    table_name,
    " WHERE username = 'alice'\")\nsession.execute(f\"DELETE FROM ",
    keyspace,
    ".",
    table_name,
    " WHERE username = 'bob'\")\n\nprint(\"\\n--- Running LWT INSERT Example ---\")\n\n# Prepare the INSERT with IF NOT EXISTS statement (LWT)\ninsert_query = f\"\"\"\nINSERT INTO ",
    keyspace,
    ".",
    table_name,
    " (username, email, created_at)\nVALUES (?, ?, ?)\nIF NOT EXISTS\n\"\"\"\nprepared = session.prepare(insert_query)\n\n# First attempt should succeed (user doesn't exist)\nusername = \"alice\"\nemail = \"alice@example.com\"\ncreated_at = datetime.now()\n\nresult = session.execute(prepared, [username, email, created_at])\n\n# The first row of the result contains a boolean [applied] field\nif result[0].applied:\n    print(f\"✅ First INSERT succeeded: User '\x7busername\x7d' was created\")\nelse:\n    print(f\"❌ First INSERT failed: User '\x7busername\x7d' already exists\")\n\n# Second attempt with the same username should fail (user already exists)\nresult = session.execute(prepared, [username, \"alice_new@example.com\", datetime.now()])\n\nif result[0].applied:\n    print(f\"✅ Second INSERT succeeded: User '\x7busername\x7d' was created\")\nelse:\n    print(f\"❌ Second INSERT failed: User '\x7busername\x7d' already exists\")\n    \n# Let's also try with a different user\nusername = \"bob\"\nemail = \"bob@example.com\"\ncreated_at = datetime.now()\n\nresult = session.execute(prepared, [username, email, created_at])\nprint(f\"✅ INSERT for user '\x7busername\x7d' applied: \x7bresult[0].applied\x7d\")\n\nprint(\"\\n--- Running LWT UPDATE Example ---\")\n\n# Prepare the UPDATE with IF condition\nupdate_query = f\"\"\"\nUPDATE ",
    keyspace,
    ".",
    table_name,
    "\nSET email = ?\nWHERE username = ?\nIF email = ?\n\"\"\"\nprepared_update = session.prepare(update_query)\n\n# Update should succeed if current email matches\nusername = \"alice\"\nold_email = \"alice@example.com\"\nnew_email = \"alice_updated@example.com\"\n\nresult = session.execute(prepared_update, [new_email, username, old_email])\n\nif result[0].applied:\n    print(f\"✅ UPDATE succeeded: Email for '\x7busername\x7d' was updated\")\nelse:\n    print(f\"❌ UPDATE failed: Current email doesn't match condition\")\n    print(f\"   Current values: \x7bdict(result[0])\x7d\")\n\n# Verify the update with a SELECT query\nselect_query = f\"SELECT * FROM ",
    keyspace,
    ".",
    table_name,
    " WHERE username = ?\"\nprepared_select = session.prepare(select_query)\nrows = session.execute(prepared_select, [username])\n\nfor row in rows:\n    print(f\"\\nUser data after update:\")\n    print(f\"  Username: \x7brow.username\x7d\")\n    print(f\"  Email: \x7brow.email\x7d\")\n    print(f\"  Created at: \x7brow.created_at\x7d\")\n\nprint(\"\\n--- Running LWT DELETE Example ---\")\n\n# Prepare DELETE with IF condition\ndelete_query = f\"\"\"\nDELETE FROM ",
    keyspace,
    ".",
    table_name,
    "\nWHERE username = ?\nIF email = ?\n\"\"\"\nprepared_delete = session.prepare(delete_query)\n\n# Try to delete with correct condition\nresult = session.execute(prepared_delete, [username, new_email])\n\nif result[0].applied:\n    print(f\"✅ DELETE succeeded: User '\x7busername\x7d' was deleted\")\nelse:\n    print(f\"❌ DELETE failed: Email condition not met\")\n    print(f\"   Current values: \x7bdict(result[0])\x7d\")\n\n# Verify deletion\nrows = session.execute(prepared_select, [username])\nif not list(rows):\n    print(f\"Verified: User '\x7busername\x7d' has been deleted\")\nelse:\n    print(f\"User '\x7busername\x7d' still exists in the database\")\n\nprint(\"\\nLightweight Transaction (LWT) operations complete!\")\n"]

/-- Python template of the LWT branch, update form (main.py lines 455-517). -/
def lwtUpdatePython (keyspace table_name : String) : String :=
  cat [
    "\n# Connect to your Cassandra cluster\n# ... connection code will be included in the driver code template ...\n\nfrom datetime import datetime\n\n# First, ensure we have the table and some data to work with\ncreate_table_query = \"\"\"\nCREATE TABLE IF NOT EXISTS ",
    keyspace,
    ".",
    table_name,
    " (\n    username text PRIMARY KEY,\n    email text,\n    created_at timestamp\n)\n\"\"\"\nsession.execute(create_table_query)\nprint(f\"Table ",
    keyspace,
    ".",
    table_name,
    " created or verified successfully\")\n\n# Create a user if it doesn't exist\nsession.execute(\"\"\"\nINSERT INTO ",
    keyspace,
    ".",
    table_name,
    " (username, email, created_at)\nVALUES ('alice', 'alice@example.com', toTimestamp(now()))\nIF NOT EXISTS\n\"\"\")\n\nprint(\"\\n--- Running LWT UPDATE Example ---\")\n\n# Show current value\nselect_query = f\"SELECT * FROM ",
    keyspace,
    ".",
    table_name,
    " WHERE username = 'alice'\"\nrows = session.execute(select_query)\nrow = rows.one()\nprint(f\"Current email for alice: \x7brow.email if row else 'not found'\x7d\")\n\n# Perform conditional update - should succeed\nupdate_query = f\"\"\"\nUPDATE ",
    keyspace,
    ".",
    table_name,
    "\nSET email = ?\nWHERE username = ?\nIF email = ?\n\"\"\"\nprepared_update = session.prepare(update_query)\n\nresult = session.execute(prepared_update, [\"alice_updated@example.com\", \"alice\", \"alice@example.com\"])\n\nif result[0].applied:\n    print(f\"✅ UPDATE succeeded: Email for alice was updated\")\nelse:\n    print(f\"❌ UPDATE failed: Current email doesn't match condition\")\n    print(f\"   Current values: \x7bdict(result[0])\x7d\")\n\n# Try with wrong condition - should fail\nresult = session.execute(prepared_update, [\"alice_updated_again@example.com\", \"alice\", \"wrong@example.com\"])\n\nif result[0].applied:\n    print(f\"✅ UPDATE succeeded: Email for alice was updated again\")\nelse:\n    print(f\"❌ UPDATE failed: Email condition not met\")\n    print(f\"   Current values: \x7bdict(result[0])\x7d\")\n\n# Verify final value\nrows = session.execute(select_query)\nrow = rows.one()\nprint(f\"Final email for alice: \x7brow.email if row else 'not found'\x7d\")\n"]

/-- Python template of the bulk-insert branch (main.py lines 534-607). -/
def bulkInsertPython (keyspace table_name : String) (num_rows : Nat) : String :=
  cat [
    "\n# Connect to your Cassandra cluster\n# ... connection code will be included in the driver code template ...\n\nimport uuid\nimport random\nfrom datetime import datetime, timedelta\n\n# Define sample data generators\nfirst_names = [\"James\", \"Mary\", \"John\", \"Patricia\", \"Robert\", \"Jennifer\", \"Michael\", \"Linda\", \"William\", \"Elizabeth\", \n               \"David\", \"Barbara\", \"Richard\", \"Susan\", \"Joseph\", \"Jessica\", \"Thomas\", \"Sarah\", \"Charles\", \"Karen\"]\nlast_names = [\"Smith\", \"Johnson\", \"Williams\", \"Jones\", \"Brown\", \"Davis\", \"Miller\", \"Wilson\", \"Moore\", \"Taylor\", \n              \"Anderson\", \"Thomas\", \"Jackson\", \"White\", \"Harris\", \"Martin\", \"Thompson\", \"Garcia\", \"Martinez\", \"Robinson\"]\ndomains = [\"gmail.com\", \"yahoo.com\", \"hotmail.com\", \"outlook.com\", \"example.com\", \"mail.org\"]\n\n# Create the users table if it doesn't exist\ncreate_table_query = \"\"\"\nCREATE TABLE IF NOT EXISTS ",
    keyspace,
    ".",
    table_name,
    " (\n    id uuid PRIMARY KEY,\n    name text,\n    email text,\n    created_at timestamp\n)\n\"\"\"\nsession.execute(create_table_query)\nprint(f\"Table ",
    keyspace,
    ".",
    table_name,
    " created or verified successfully\")\n\n# Prepare the insert statement for better performance\nprepared_stmt = session.prepare(\"\"\"\n    INSERT INTO ",
    keyspace,
    ".",
    table_name,
    " (id, name, email, created_at)\n    VALUES (?, ?, ?, ?)\n\"\"\")\n\nprint(f\"Inserting ",
    toString num_rows,
    " rows into ",
    keyspace,
    ".",
    table_name,
    "...\")\n\n# Track timing\nstart_time = datetime.now()\n\nfor i in range(",
    toString num_rows,
    "):\n    # Generate random user data\n    user_id = uuid.uuid4()\n    first_name = random.choice(first_names)\n    last_name = random.choice(last_names)\n    name = f\"\x7bfirst_name\x7d \x7blast_name\x7d\"\n    email = f\"\x7bfirst_name.lower()\x7d.\x7blast_name.lower()\x7d@\x7brandom.choice(domains)\x7d\"\n    \n    # Random date in the past year\n    days_ago = random.randint(0, 365)\n    created_at = datetime.now() + timedelta(days=days_ago)\n    \n    # Insert the row\n    session.execute(prepared_stmt, [user_id, name, email, created_at])\n    \n    # Show progress for larger inserts\n    if ",
    toString num_rows,
    " > 100 and i % (",
    toString num_rows,
    " // 10) == 0:\n        print(f\"Progress: \x7bi+1\x7d/",
    toString num_rows,
    " rows inserted (\x7b(i+1)*100/",
    toString num_rows,
    ":.1f\x7d%)\")\n\nelapsed_time = (datetime.now() - start_time).total_seconds()\nprint(f\"✅ Successfully inserted ",
    toString num_rows,
    " rows into ",
    keyspace,
    ".",
    table_name,
    "\")\nprint(f\"Total time: \x7belapsed_time:.2f\x7d seconds\")\n\n# Sample the data we just inserted\nprint(\"\\n--- Sample Data ---\")\nrows = session.execute(f\"SELECT * FROM ",
    keyspace,
    ".",
    table_name,
    " LIMIT 5\")\n\nfor i, row in enumerate(rows):\n    print(f\"\\nRow \x7bi+1\x7d:\")\n    print(f\"  ID: \x7brow.id\x7d\")\n    print(f\"  Name: \x7brow.name\x7d\")\n    print(f\"  Email: \x7brow.email\x7d\")\n    print(f\"  Created At: \x7brow.created_at\x7d\")\n\nprint(f\"\\nTo view all data: SELECT * FROM ",
    keyspace,
    ".",
    table_name,
    ";\")\n"]

/-- Python template of the select branch, count form (main.py lines 628-638). -/
def selectCountPython (keyspace table_name : String) : String :=
  cat [
    "\n# Connect to your Cassandra cluster\n# ... connection code will be included in the driver code template ...\n\n# Count rows in the table\ncount_query = f\"SELECT COUNT(*) FROM ",
    keyspace,
    ".",
    table_name,
    "\"\nresult = session.execute(count_query)\ncount = result.one().count  # The count is in the first column of the first row\n\nprint(f\"Total rows in ",
    keyspace,
    ".",
    table_name,
    ": \x7bcount\x7d\")\n"]

/-- Python template of the select branch, row-fetch form (main.py lines 640-680). -/
def selectRowsPython (keyspace table_name : String) (limit : Nat) : String :=
  cat [
    "\n# Connect to your Cassandra cluster\n# ... connection code will be included in the driver code template ...\n\nimport time\n\n# Execute query to select data\nquery = f\"SELECT * FROM ",
    keyspace,
    ".",
    table_name,
    " LIMIT ",
    toString limit,
    "\"\nprint(f\"Executing query: \x7bquery\x7d\")\n\n# Track query performance\nstart_time = time.time()\nrows = session.execute(query)\nend_time = time.time()\n\n# Convert rows to a list to get row count (this consumes the iterator)\nresults = list(rows)\ncount = len(results)\n\nprint(f\"Query executed in \x7bend_time - start_time:.4f\x7d seconds\")\nprint(f\"Retrieved \x7bcount\x7d rows from ",
    keyspace,
    ".",
    table_name,
    "\")\n\n# Print column names\nif count > 0:\n    print(\"\\nColumns:\")\n    for col_name in results[0]._fields:\n        print(f\"  - \x7bcol_name\x7d\")\n\n# Print the data\nprint(\"\\nData:\")\nfor i, row in enumerate(results):\n    print(f\"\\nRow \x7bi+1\x7d:\")\n    for field_name in row._fields:\n        print(f\"  \x7bfield_name\x7d: \x7bgetattr(row, field_name)\x7d\")\n\n# Show CQL for more queries\nprint(f\"\\nMore query examples:\")\nprint(f\"1. Count rows: SELECT COUNT(*) FROM ",
    keyspace,
    ".",
    table_name,
    ";\")\nprint(f\"2. Get specific columns: SELECT id, name FROM ",
    keyspace,
    ".",
    table_name,
    " LIMIT 5;\")\nprint(f\"3. Filter by a column: SELECT * FROM ",
    keyspace,
    ".",
    table_name,
    " WHERE <column> = <value> ALLOW FILTERING;\")\n"]

/-- Literal chunk of the fallback template before the echoed query (main.py lines 685-690). -/
def unknownPrefixChunk : String :=
  "\n# Connect to your Cassandra cluster\n# ... connection code will be included in the driver code template ...\n\n# Execute the query\nquery = \""

/-- Literal chunk of the fallback template after the echoed query (main.py lines 690-701). -/
def unknownSuffixChunk : String :=
  "\"  # This is your natural language query\nprint(f\"Executing query: \x7bquery\x7d\")\n\n# This is a placeholder. In a real application, you would perform\n# appropriate actions based on the query intent.\nresult = session.execute(\"SELECT * FROM system.local\")\nprint(\"Query executed\")\n\n# Print some example results\nfor row in result:\n    print(row)\n"

/-- Fallback template for queries matching no category (main.py lines 685-701). -/
def unknownTemplate (query : String) : String :=
  cat [unknownPrefixChunk, query, unknownSuffixChunk]

/-- Detection predicate of the large-partition branch (main.py line 151). -/
def isLargePartitionQuery (q : String) : Bool :=
  substr q "large partition" || substr q "big partition" || substr q "test partition" ||
  (substr q "partition" && substr q "size") || (substr q "generate" && substr q "partition") ||
  substr q "create a large partition" || substr q "large partition example" ||
  stripStr q == "create large partition" || substr q "partition large"

/-- Detection predicate of the lightweight-transaction branch (main.py line 316). -/
def isLwtQuery (q : String) : Bool :=
  substr q "lightweight" || substr q "lwt" || substr q "if not exists" ||
  substr q "conditional" || substr q "create lwt" || substr q "lwt example" ||
  stripStr q == "lwt" || substr q "use lwt"

/-- Detection predicate of the bulk-insert branch (main.py line 522). -/
def isBulkInsertQuery (q : String) : Bool :=
  (substr q "insert" || substr q "add" || substr q "create") &&
  (substr q "row" || substr q "record" || substr q "data")

/-- Detection predicate of the select branch (main.py line 612). -/
def isSelectQuery (q : String) : Bool :=
  substr q "select" || substr q "query" || substr q "get" || substr q "retrieve" ||
  substr q "show" || substr q "list" || substr q "all rows" || substr q "all records"

/-- Row count of the large-partition branch: `(\d+)\s+rows`, default 1000
(main.py lines 153-154). -/
def lpNumRows (l : List Char) : Nat :=
  match digitsRowsSearch l with
  | some d => digitsToNat d
  | none => 1000

/-- Table name of the large-partition branch: `table\s+(\w+)`, default
`user_activity` (main.py lines 157-160). -/
def lpTableName (l : List Char) : String :=
  match kwSearch "table".data isWordChar l with
  | some w => String.mk w
  | none => "user_activity"

/-- Partition key of the large-partition branch: `key\s+(\w+)`, default
`user_id` (main.py lines 163-166). -/
def lpPartitionKey (l : List Char) : String :=
  match kwSearch "key".data isWordChar l with
  | some w => String.mk w
  | none => "user_id"

/-- Table name of the LWT branch: `table\s+(\w+)`, default `users`
(main.py lines 318-321). -/
def lwtTableName (l : List Char) : String :=
  match kwSearch "table".data isWordChar l with
  | some w => String.mk w
  | none => "users"

/-- Row count of the bulk-insert branch: `(\d+)`, default 10
(main.py lines 524-525). -/
def biNumRows (l : List Char) : Nat :=
  match digitSearch l with
  | some d => digitsToNat d
  | none => 10

/-- Table name of the bulk-insert branch: `table\s+(\w+)|into\s+(\w+)`,
default `users` (main.py lines 528-531). -/
def biTableName (l : List Char) : String :=
  match altSearch "table".data "into".data isWordChar l with
  | some w => String.mk w
  | none => "users"

/-- Table name of the select branch: `from\s+(\w+)|table\s+(\w+)`, default
`users` (main.py lines 614-617). -/
def selTableName (l : List Char) : String :=
  match altSearch "from".data "table".data isWordChar l with
  | some w => String.mk w
  | none => "users"

/-- Limit of the select branch: `limit\s+(\d+)`, default 10
(main.py lines 623-624). -/
def selLimit (l : List Char) : Nat :=
  match kwSearch "limit".data isDigitChar l with
  | some d => digitsToNat d
  | none => 10

/-- Large-partition branch of `parse_natural_language_query`
(main.py lines 151-313). -/
def largePartitionBranch (query keyspace driver_type : String) : String :=
  if driver_type == "python" then
    largePartitionPython keyspace (lpTableName query.data) (lpPartitionKey query.data)
      (lpNumRows query.data)
  else
    "Java driver code for large partition example"

/-- Lightweight-transaction branch (main.py lines 316-519).  The operation
type is `update` exactly when the text contains `update`, otherwise
`insert`. -/
def lwtBranch (query keyspace driver_type : String) : String :=
  let operation_type : String := if substr query "update" then "update" else "insert"
  if driver_type == "python" then
    if operation_type == "insert" then lwtInsertPython keyspace (lwtTableName query.data)
    else lwtUpdatePython keyspace (lwtTableName query.data)
  else
    "Java driver code for LWT example"

/-- Bulk-insert branch (main.py lines 522-609). -/
def bulkInsertBranch (query keyspace driver_type : String) : String :=
  if driver_type == "python" then
    bulkInsertPython keyspace (biTableName query.data) (biNumRows query.data)
  else
    "Java driver code for inserting rows"

/-- Select branch (main.py lines 612-682). -/
def selectBranch (query keyspace driver_type : String) : String :=
  let count_query : Bool := substr query "count"
  if driver_type == "python" then
    if count_query then selectCountPython keyspace (selTableName query.data)
    else selectRowsPython keyspace (selTableName query.data) (selLimit query.data)
  else
    "Java driver code for selecting data"

/-- Embedding of `parse_natural_language_query` (main.py lines 143-701): the
query is lower-cased and trimmed once, then the branch predicates are tried in
their source order, the generic fallback template closing the chain. -/
def parse_natural_language_query (query keyspace driver_type : String) : String :=
  let query := stripStr (lowerStr query)
  if isLargePartitionQuery query then largePartitionBranch query keyspace driver_type
  else if isLwtQuery query then lwtBranch query keyspace driver_type
  else if isBulkInsertQuery query then bulkInsertBranch query keyspace driver_type
  else if isSelectQuery query then selectBranch query keyspace driver_type
  else unknownTemplate query

/-- The fixed category set of the specification. -/
inductive Category where
  | LargePartition
  | LightweightTransactionInsert
  | LightweightTransactionUpdate
  | BulkInsert
  | Select
  | SelectCount
  | Unknown
deriving DecidableEq

/-- Category selected for a normalized query: the source's predicate chain in
order, with the sub-keyword refinements of the LWT and select branches. -/
def classify (q : String) : Category :=
  if isLargePartitionQuery q then .LargePartition
  else if isLwtQuery q then
    (if substr q "update" then .LightweightTransactionUpdate
     else .LightweightTransactionInsert)
  else if isBulkInsertQuery q then .BulkInsert
  else if isSelectQuery q then (if substr q "count" then .SelectCount else .Select)
  else .Unknown

/-- Branch handler attached to each category. -/
def renderCategory : Category → String → String → String → String
  | .LargePartition, q, ks, dt => largePartitionBranch q ks dt
  | .LightweightTransactionInsert, q, ks, dt => lwtBranch q ks dt
  | .LightweightTransactionUpdate, q, ks, dt => lwtBranch q ks dt
  | .BulkInsert, q, ks, dt => bulkInsertBranch q ks dt
  | .Select, q, ks, dt => selectBranch q ks dt
  | .SelectCount, q, ks, dt => selectBranch q ks dt
  | .Unknown, q, _, _ => unknownTemplate q

/-! Helper lemmas about the embedding's string machinery. -/

theorem cat_cons (s : String) (l : List String) : cat (s :: l) = s ++ cat l := rfl

theorem append_ne_empty (s t : String) (h : s ≠ "") : s ++ t ≠ "" := by
  intro he
  have hd : s.data ++ t.data = ([] : List Char) := by
    simpa using congrArg String.data he
  obtain ⟨h1, _⟩ := List.append_eq_nil.mp hd
  apply h
  cases s with
  | mk d => cases h1; rfl

theorem cat_cons_ne_empty {s : String} (l : List String) (h : s ≠ "") :
    cat (s :: l) ≠ "" := by
  rw [cat_cons]; exact append_ne_empty s (cat l) h

theorem append_ne_append_of_getElem {a b : String} (t v : String) (k : Nat)
    (ha : k < a.data.length) (hb : k < b.data.length)
    (hne : a.data[k]? ≠ b.data[k]?) : a ++ t ≠ b ++ v := by
  intro he
  apply hne
  have hd := congrArg String.data he
  rw [String.data_append, String.data_append] at hd
  calc a.data[k]? = (a.data ++ t.data)[k]? := (List.getElem?_append_left ha).symm
    _ = (b.data ++ v.data)[k]? := by rw [hd]
    _ = b.data[k]? := List.getElem?_append_left hb

theorem mem_infix_cat (s : String) (l : List String) (h : s ∈ l) :
    s.data <:+: (cat l).data := by
  induction l with
  | nil => cases h
  | cons a m ih =>
    rw [cat_cons, String.data_append]
    rcases List.mem_cons.mp h with rfl | h'
    · exact ⟨[], (cat m).data, by simp⟩
    · obtain ⟨u, v, huv⟩ := ih h'
      exact ⟨a.data ++ u, v, by rw [← huv]; simp⟩

theorem hasSub_iff {pat l : List Char} : hasSub pat l = true ↔ pat <:+: l := by
  induction l with
  | nil => simp [hasSub, List.isEmpty_iff]
  | cons c cs ih =>
    simp only [hasSub, Bool.or_eq_true, List.isPrefixOf_iff_prefix, ih,
      List.infix_cons_iff]

theorem substr_of_infix {hay pat : String} (h : pat.data <:+: hay.data) :
    substr hay pat = true := hasSub_iff.mpr h

theorem dropWhile_head_false (p : Char → Bool) (l : List Char) (c : Char)
    (h : (l.dropWhile p).head? = some c) : p c = false := by
  have hh := List.head?_dropWhile_not p l
  rw [h] at hh
  exact hh

theorem kwMatchHere_eq_some {kw : List Char} {cls : Char → Bool} {l w : List Char}
    (h : kwMatchHere kw cls l = some w) :
    w ≠ [] ∧ w.all cls = true ∧
    ∃ sps suf, l = kw ++ (sps ++ (w ++ suf)) ∧ sps ≠ [] ∧
      sps.all isSpaceChar = true ∧ (∀ c, suf.head? = some c → cls c = false) := by
  simp only [kwMatchHere] at h
  split at h
  case isFalse => exact absurd h (by simp)
  case isTrue hp =>
    split at h
    case isTrue => exact absurd h (by simp)
    case isFalse hcond =>
      rw [Bool.or_eq_true, not_or] at hcond
      obtain ⟨hsps, hw⟩ := hcond
      injection h with hw'
      subst hw'
      obtain ⟨t, ht⟩ := List.isPrefixOf_iff_prefix.mp hp
      have hrest : l.drop kw.length = t := by rw [← ht, List.drop_left]
      rw [hrest] at hsps hw ⊢
      refine ⟨by simpa using hw, List.all_takeWhile, t.takeWhile isSpaceChar,
        (t.dropWhile isSpaceChar).dropWhile cls, ?_, by simpa using hsps,
        List.all_takeWhile, fun c hc => dropWhile_head_false cls _ c hc⟩
      rw [← ht]
      congr 1
      conv_lhs => rw [← List.takeWhile_append_dropWhile isSpaceChar t]
      congr 1
      rw [List.takeWhile_append_dropWhile]

theorem kwSearch_eq_some {kw : List Char} {cls : Char → Bool} {l w : List Char}
    (h : kwSearch kw cls l = some w) :
    w ≠ [] ∧ w.all cls = true ∧
    ∃ pre sps suf, l = pre ++ (kw ++ (sps ++ (w ++ suf))) ∧ sps ≠ [] ∧
      sps.all isSpaceChar = true ∧ (∀ c, suf.head? = some c → cls c = false) := by
  induction l with
  | nil => exact absurd h (by simp [kwSearch])
  | cons c cs ih =>
    rw [kwSearch] at h
    cases hm : kwMatchHere kw cls (c :: cs) with
    | some w' =>
      rw [hm] at h
      injection h with h'
      subst h'
      obtain ⟨h1, h2, sps, suf, hdec, h3, h4, h5⟩ := kwMatchHere_eq_some hm
      exact ⟨h1, h2, [], sps, suf, by simpa using hdec, h3, h4, h5⟩
    | none =>
      rw [hm] at h
      obtain ⟨h1, h2, pre, sps, suf, hdec, h3, h4, h5⟩ := ih h
      exact ⟨h1, h2, c :: pre, sps, suf, by simp [hdec], h3, h4, h5⟩

theorem altSearch_eq_some {kw1 kw2 : List Char} {cls : Char → Bool} {l w : List Char}
    (h : altSearch kw1 kw2 cls l = some w) :
    w ≠ [] ∧ w.all cls = true ∧
    ∃ kw, (kw = kw1 ∨ kw = kw2) ∧
      ∃ pre sps suf, l = pre ++ (kw ++ (sps ++ (w ++ suf))) ∧ sps ≠ [] ∧
        sps.all isSpaceChar = true ∧ (∀ c, suf.head? = some c → cls c = false) := by
  induction l with
  | nil => exact absurd h (by simp [altSearch])
  | cons c cs ih =>
    rw [altSearch] at h
    cases hm1 : kwMatchHere kw1 cls (c :: cs) with
    | some w' =>
      rw [hm1] at h
      injection h with h'
      subst h'
      obtain ⟨h1, h2, sps, suf, hdec, h3, h4, h5⟩ := kwMatchHere_eq_some hm1
      exact ⟨h1, h2, kw1, Or.inl rfl, [], sps, suf, by simpa using hdec, h3, h4, h5⟩
    | none =>
      rw [hm1] at h
      cases hm2 : kwMatchHere kw2 cls (c :: cs) with
      | some w' =>
        rw [hm2] at h
        injection h with h'
        subst h'
        obtain ⟨h1, h2, sps, suf, hdec, h3, h4, h5⟩ := kwMatchHere_eq_some hm2
        exact ⟨h1, h2, kw2, Or.inr rfl, [], sps, suf, by simpa using hdec, h3, h4, h5⟩
      | none =>
        rw [hm2] at h
        obtain ⟨h1, h2, kw, hkw, pre, sps, suf, hdec, h3, h4, h5⟩ := ih h
        exact ⟨h1, h2, kw, hkw, c :: pre, sps, suf, by simp [hdec], h3, h4, h5⟩

theorem kwMatchHere_eq_none_of_not_prefix {kw : List Char} {cls : Char → Bool}
    {l : List Char} (h : kw.isPrefixOf l = false) : kwMatchHere kw cls l = none := by
  simp [kwMatchHere, h]

theorem kwSearch_eq_none_of_not_sub {kw : List Char} (cls : Char → Bool)
    {l : List Char} (h : hasSub kw l = false) : kwSearch kw cls l = none := by
  induction l with
  | nil => rfl
  | cons c cs ih =>
    rw [hasSub, Bool.or_eq_false_iff] at h
    rw [kwSearch, kwMatchHere_eq_none_of_not_prefix h.1]
    exact ih h.2

theorem altSearch_eq_none_of_not_sub {kw1 kw2 : List Char} (cls : Char → Bool)
    {l : List Char} (h1 : hasSub kw1 l = false) (h2 : hasSub kw2 l = false) :
    altSearch kw1 kw2 cls l = none := by
  induction l with
  | nil => rfl
  | cons c cs ih =>
    rw [hasSub, Bool.or_eq_false_iff] at h1 h2
    rw [altSearch, kwMatchHere_eq_none_of_not_prefix h1.1,
      kwMatchHere_eq_none_of_not_prefix h2.1]
    exact ih h1.2 h2.2

theorem word_not_space {c : Char} (h : isWordChar c = true) : isSpaceChar c = false := by
  cases hs : isSpaceChar c with
  | false => rfl
  | true =>
    exfalso
    simp only [isSpaceChar, Bool.or_eq_true, beq_iff_eq] at hs
    rcases hs with ((((rfl | rfl) | rfl) | rfl) | rfl) | rfl <;>
      exact absurd h (by decide)

/-! Branch-level helper lemmas. -/

theorem largePartitionBranch_ne_empty (q ks dt : String) :
    largePartitionBranch q ks dt ≠ "" := by
  simp only [largePartitionBranch]
  split
  · simp only [largePartitionPython]
    exact cat_cons_ne_empty _ (by decide)
  · decide

theorem lwtBranch_ne_empty (q ks dt : String) : lwtBranch q ks dt ≠ "" := by
  simp only [lwtBranch]
  split
  · split
    · simp only [lwtInsertPython]
      exact cat_cons_ne_empty _ (by decide)
    · simp only [lwtUpdatePython]
      exact cat_cons_ne_empty _ (by decide)
  · decide

theorem bulkInsertBranch_ne_empty (q ks dt : String) :
    bulkInsertBranch q ks dt ≠ "" := by
  simp only [bulkInsertBranch]
  split
  · simp only [bulkInsertPython]
    exact cat_cons_ne_empty _ (by decide)
  · decide

theorem selectBranch_ne_empty (q ks dt : String) : selectBranch q ks dt ≠ "" := by
  simp only [selectBranch]
  split
  · split
    · simp only [selectCountPython]
      exact cat_cons_ne_empty _ (by decide)
    · simp only [selectRowsPython]
      exact cat_cons_ne_empty _ (by decide)
  · decide

theorem unknownTemplate_ne_empty (q : String) : unknownTemplate q ≠ "" := by
  simp only [unknownTemplate]
  exact cat_cons_ne_empty _ (by decide)

theorem parse_ne_empty (q ks dt : String) :
    parse_natural_language_query q ks dt ≠ "" := by
  simp only [parse_natural_language_query]
  split
  · exact largePartitionBranch_ne_empty _ _ _
  · split
    · exact lwtBranch_ne_empty _ _ _
    · split
      · exact bulkInsertBranch_ne_empty _ _ _
      · split
        · exact selectBranch_ne_empty _ _ _
        · exact unknownTemplate_ne_empty _

theorem parse_eq_renderCategory (q ks dt : String) :
    parse_natural_language_query q ks dt =
      renderCategory (classify (stripStr (lowerStr q))) (stripStr (lowerStr q)) ks dt := by
  simp only [parse_natural_language_query, classify]
  split_ifs <;> rfl

theorem largePartitionBranch_java (q ks : String) :
    largePartitionBranch q ks "java" = "Java driver code for large partition example" := rfl

theorem lwtBranch_java (q ks : String) :
    lwtBranch q ks "java" = "Java driver code for LWT example" := rfl

theorem bulkInsertBranch_java (q ks : String) :
    bulkInsertBranch q ks "java" = "Java driver code for inserting rows" := rfl

theorem selectBranch_java (q ks : String) :
    selectBranch q ks "java" = "Java driver code for selecting data" := rfl

theorem largePartitionBranch_ne_bulkInsertBranch (q1 q2 ks1 ks2 dt : String) :
    largePartitionBranch q1 ks1 dt ≠ bulkInsertBranch q2 ks2 dt := by
  simp only [largePartitionBranch, bulkInsertBranch]
  by_cases hdt : (dt == "python") = true
  · rw [if_pos hdt, if_pos hdt]
    simp only [largePartitionPython, bulkInsertPython]
    rw [cat_cons, cat_cons]
    exact append_ne_append_of_getElem _ _ 135 (by decide) (by decide) (by decide)
  · rw [if_neg hdt, if_neg hdt]
    decide

/-! Claim theorems. -/

/-- C1: classification tries LargePartition before BulkInsert with
first-match-wins — every query whose normalized text satisfies both the
LargePartition and the BulkInsert predicates is answered by the
large-partition branch and never by the bulk-insert branch. -/
theorem c1_largePartition_priority (q ks dt : String)
    (hlp : isLargePartitionQuery (stripStr (lowerStr q)) = true)
    (hbi : isBulkInsertQuery (stripStr (lowerStr q)) = true) :
    parse_natural_language_query q ks dt =
      largePartitionBranch (stripStr (lowerStr q)) ks dt ∧
    parse_natural_language_query q ks dt ≠
      bulkInsertBranch (stripStr (lowerStr q)) ks dt := by
  have h1 : parse_natural_language_query q ks dt =
      largePartitionBranch (stripStr (lowerStr q)) ks dt := by
    simp only [parse_natural_language_query]
    rw [if_pos hlp]
  refine ⟨h1, ?_⟩
  rw [h1]
  exact largePartitionBranch_ne_bulkInsertBranch _ _ _ _ _

/-- Witness for C1 at a concrete query matching both predicates. -/
theorem c1_largePartition_priority_witness :
    parse_natural_language_query "create large partition rows" "ks" "python" =
      largePartitionBranch (stripStr (lowerStr "create large partition rows")) "ks" "python" ∧
    parse_natural_language_query "create large partition rows" "ks" "python" ≠
      bulkInsertBranch (stripStr (lowerStr "create large partition rows")) "ks" "python" :=
  c1_largePartition_priority "create large partition rows" "ks" "python"
    (by decide) (by decide)

/-- C2: for every query, keyspace and supported driver type the function
terminates with the branch of exactly one category — the Unknown fallback
closing the chain — and returns a single non-empty string. -/
theorem c2_classification_total (q ks dt : String)
    (h : dt = "python" ∨ dt = "java") :
    parse_natural_language_query q ks dt ≠ "" ∧
    parse_natural_language_query q ks dt =
      renderCategory (classify (stripStr (lowerStr q))) (stripStr (lowerStr q)) ks dt :=
  ⟨parse_ne_empty q ks dt, parse_eq_renderCategory q ks dt⟩

/-- Witness for C2 at a concrete call. -/
theorem c2_classification_total_witness :
    parse_natural_language_query "hello" "ks" "python" ≠ "" ∧
    parse_natural_language_query "hello" "ks" "python" =
      renderCategory (classify (stripStr (lowerStr "hello"))) (stripStr (lowerStr "hello"))
        "ks" "python" :=
  c2_classification_total "hello" "ks" "python" (Or.inl rfl)

/-- C3 counterexample: with driver type java the Unknown fallback category
does not return one of the short placeholder strings — it returns the full
generic template, so the claim fails as stated. -/
theorem c3_java_unknown_counterexample :
    parse_natural_language_query "asdkjasd" "ks" "java" = unknownTemplate "asdkjasd" ∧
    parse_natural_language_query "asdkjasd" "ks" "java" ∉
      (["Java driver code for large partition example",
        "Java driver code for LWT example",
        "Java driver code for inserting rows",
        "Java driver code for selecting data"] : List String) :=
  ⟨rfl, by decide⟩

/-- C3 (amended): with driver type java every recognized category returns a
short placeholder string; the Unknown fallback instead returns the same
generic template as for python. -/
theorem c3_java_placeholders (q ks : String)
    (h : classify (stripStr (lowerStr q)) ≠ Category.Unknown) :
    parse_natural_language_query q ks "java" ∈
      (["Java driver code for large partition example",
        "Java driver code for LWT example",
        "Java driver code for inserting rows",
        "Java driver code for selecting data"] : List String) := by
  simp only [parse_natural_language_query]
  cases h1 : isLargePartitionQuery (stripStr (lowerStr q)) with
  | true =>
    rw [if_pos rfl, largePartitionBranch_java]
    decide
  | false =>
    rw [if_neg Bool.false_ne_true]
    cases h2 : isLwtQuery (stripStr (lowerStr q)) with
    | true =>
      rw [if_pos rfl, lwtBranch_java]
      decide
    | false =>
      rw [if_neg Bool.false_ne_true]
      cases h3 : isBulkInsertQuery (stripStr (lowerStr q)) with
      | true =>
        rw [if_pos rfl, bulkInsertBranch_java]
        decide
      | false =>
        rw [if_neg Bool.false_ne_true]
        cases h4 : isSelectQuery (stripStr (lowerStr q)) with
        | true =>
          rw [if_pos rfl, selectBranch_java]
          decide
        | false =>
          exfalso
          apply h
          simp only [classify]
          rw [if_neg (by simp [h1]), if_neg (by simp [h2]), if_neg (by simp [h3]),
            if_neg (by simp [h4])]

/-- Witness for the amended C3 at a recognized-category query. -/
theorem c3_java_placeholders_witness :
    parse_natural_language_query "use lwt" "ks" "java" ∈
      (["Java driver code for large partition example",
        "Java driver code for LWT example",
        "Java driver code for inserting rows",
        "Java driver code for selecting data"] : List String) :=
  c3_java_placeholders "use lwt" "ks" (by decide)

/-- C4 counterexample: the query `count rows` matches no select-family
keyword, so it is classified Unknown and its rendered code contains no
count-style statement at all. -/
theorem c4_count_rows_counterexample :
    parse_natural_language_query "count rows" "ks" "python" =
      unknownTemplate "count rows" ∧
    substr (parse_natural_language_query "count rows" "ks" "python")
      "SELECT COUNT" = false ∧
    classify (stripStr (lowerStr "count rows")) = Category.Unknown :=
  ⟨rfl, by decide, by decide⟩

/-- C4 (amended): `count rows` yields the Unknown fallback (a generic
`system.local` read); a select-family query containing `count`, such as
`count all rows`, yields the count-style `SELECT COUNT(*)` template rather
than a row-fetch statement. -/
theorem c4_count_style_amended :
    parse_natural_language_query "count all rows" "ks" "python" =
      selectCountPython "ks" "users" ∧
    substr (selectCountPython "ks" "users") "SELECT COUNT(*) FROM" = true ∧
    substr (selectCountPython "ks" "users") "SELECT * FROM" = false ∧
    substr (parse_natural_language_query "count rows" "ks" "python")
      "SELECT * FROM system.local" = true :=
  ⟨rfl, by decide, by decide, by decide⟩

/-- C5 counterexample: in the select branch the keyword `from` does supply
the table name — `select from orders` renders with table `orders` although no
`table` keyword occurs in the text, contradicting the claim that only `table`
(and `into` for BulkInsert) ever does. -/
theorem c5_from_supplies_table_counterexample :
    parse_natural_language_query "select from orders" "ks" "python" =
      selectRowsPython "ks" "orders" 10 ∧
    hasSub "table".data ("select from orders").data = false ∧
    selTableName ("select from orders").data = "orders" :=
  ⟨rfl, by decide, by decide⟩

/-- C5 (amended): the extracted table name is the word immediately following
`table` when present; additionally, for BulkInsert the word following `into`
and for the Select family the word following `from` (the `from|table`
alternation); otherwise the category default (`user_activity` for
LargePartition, `users` for the others).  Only the Select family consults
`from`. -/
theorem c5_table_name_extraction (l : List Char) :
    (hasSub "table".data l = false →
      lpTableName l = "user_activity" ∧ lwtTableName l = "users") ∧
    (hasSub "table".data l = false → hasSub "into".data l = false →
      biTableName l = "users") ∧
    (hasSub "from".data l = false → hasSub "table".data l = false →
      selTableName l = "users") ∧
    (∀ w, kwSearch "table".data isWordChar l = some w →
      lpTableName l = String.mk w ∧ lwtTableName l = String.mk w ∧
      ∃ pre sps suf, l = pre ++ ("table".data ++ (sps ++ (w ++ suf)))) ∧
    (∀ w, altSearch "table".data "into".data isWordChar l = some w →
      biTableName l = String.mk w ∧
      ∃ kw, (kw = "table".data ∨ kw = "into".data) ∧
        ∃ pre sps suf, l = pre ++ (kw ++ (sps ++ (w ++ suf)))) ∧
    (∀ w, altSearch "from".data "table".data isWordChar l = some w →
      selTableName l = String.mk w ∧
      ∃ kw, (kw = "from".data ∨ kw = "table".data) ∧
        ∃ pre sps suf, l = pre ++ (kw ++ (sps ++ (w ++ suf)))) := by
  refine ⟨?_, ?_, ?_, ?_, ?_, ?_⟩
  · intro h
    simp [lpTableName, lwtTableName, kwSearch_eq_none_of_not_sub isWordChar h]
  · intro h1 h2
    simp only [biTableName, altSearch_eq_none_of_not_sub isWordChar h1 h2]
  · intro h1 h2
    simp only [selTableName, altSearch_eq_none_of_not_sub isWordChar h1 h2]
  · intro w hw
    obtain ⟨_, _, pre, sps, suf, hdec, _, _, _⟩ := kwSearch_eq_some hw
    exact ⟨by simp only [lpTableName, hw], by simp only [lwtTableName, hw],
      pre, sps, suf, hdec⟩
  · intro w hw
    obtain ⟨_, _, kw, hkw, pre, sps, suf, hdec, _, _, _⟩ := altSearch_eq_some hw
    exact ⟨by simp only [biTableName, hw], kw, hkw, pre, sps, suf, hdec⟩
  · intro w hw
    obtain ⟨_, _, kw, hkw, pre, sps, suf, hdec, _, _, _⟩ := altSearch_eq_some hw
    exact ⟨by simp only [selTableName, hw], kw, hkw, pre, sps, suf, hdec⟩

/-- Witness for the amended C5: default table names at concrete queries whose
text has no `table` (nor, per branch, `into` or `from`) keyword. -/
theorem c5_table_name_extraction_witness :
    lpTableName ("insert rows from orders").data = "user_activity" ∧
    selTableName ("hello").data = "users" :=
  ⟨((c5_table_name_extraction ("insert rows from orders").data).1 (by decide)).1,
   (c5_table_name_extraction ("hello").data).2.2.1 (by decide) (by decide)⟩

/-- C6: `insert 5 rows` renders the bulk-insert template with row count 5 and
default table `users`; `insert rows into orders` renders it with table
`orders` and the default row count 10 (no digit run present). -/
theorem c6_bulk_insert_examples (ks : String) :
    parse_natural_language_query "insert 5 rows" ks "python" =
      bulkInsertPython ks "users" 5 ∧
    parse_natural_language_query "insert rows into orders" ks "python" =
      bulkInsertPython ks "orders" 10 ∧
    substr (parse_natural_language_query "insert 5 rows" "ks" "python")
      "for i in range(5)" = true :=
  ⟨rfl, rfl, by decide⟩

/-- C7: `use lwt` renders the LWT insert template, whose text carries the
literal marker `IF NOT EXISTS`; `conditional update` renders the LWT update
template, whose text carries the literal marker `IF email =`. -/
theorem c7_lwt_markers :
    parse_natural_language_query "use lwt" "ks" "python" =
      lwtInsertPython "ks" "users" ∧
    substr (parse_natural_language_query "use lwt" "ks" "python")
      "IF NOT EXISTS" = true ∧
    parse_natural_language_query "conditional update" "ks" "python" =
      lwtUpdatePython "ks" "users" ∧
    substr (parse_natural_language_query "conditional update" "ks" "python")
      "IF email =" = true :=
  ⟨rfl, by decide, rfl, by decide⟩

/-- C8: any query matching no category predicate falls to the generic
fallback for either driver type: the result is the fixed template around the
normalized query text — hence non-empty and echoing that text — it reads
`SELECT * FROM system.local`, and the fixed template chunks contain no
data-manipulation statement. -/
theorem c8_unknown_fallback (q ks dt : String)
    (h1 : isLargePartitionQuery (stripStr (lowerStr q)) = false)
    (h2 : isLwtQuery (stripStr (lowerStr q)) = false)
    (h3 : isBulkInsertQuery (stripStr (lowerStr q)) = false)
    (h4 : isSelectQuery (stripStr (lowerStr q)) = false) :
    parse_natural_language_query q ks dt = unknownTemplate (stripStr (lowerStr q)) ∧
    parse_natural_language_query q ks dt ≠ "" ∧
    (stripStr (lowerStr q)).data <:+: (parse_natural_language_query q ks dt).data ∧
    substr (parse_natural_language_query q ks dt) "SELECT * FROM system.local" = true ∧
    hasSub "INSERT".data unknownPrefixChunk.data = false ∧
    hasSub "UPDATE".data unknownPrefixChunk.data = false ∧
    hasSub "DELETE".data unknownPrefixChunk.data = false ∧
    hasSub "INSERT".data unknownSuffixChunk.data = false ∧
    hasSub "UPDATE".data unknownSuffixChunk.data = false ∧
    hasSub "DELETE".data unknownSuffixChunk.data = false := by
  have he : parse_natural_language_query q ks dt =
      unknownTemplate (stripStr (lowerStr q)) := by
    simp only [parse_natural_language_query]
    rw [if_neg (by simp [h1]), if_neg (by simp [h2]), if_neg (by simp [h3]),
      if_neg (by simp [h4])]
  have hsuffix : unknownSuffixChunk.data <:+: (unknownTemplate (stripStr (lowerStr q))).data := by
    simp only [unknownTemplate]
    exact mem_infix_cat _ _ (by simp)
  refine ⟨he, ?_, ?_, ?_, by decide, by decide, by decide, by decide, by decide, by decide⟩
  · exact parse_ne_empty q ks dt
  · rw [he]
    simp only [unknownTemplate]
    exact mem_infix_cat _ _ (by simp)
  · rw [he]
    apply substr_of_infix
    exact (hasSub_iff.mp (by decide)).trans hsuffix

/-- Witness for C8 at the spec's example query, java driver type. -/
theorem c8_unknown_fallback_witness :
    parse_natural_language_query "asdkjasd" "ks" "java" =
      unknownTemplate (stripStr (lowerStr "asdkjasd")) ∧
    parse_natural_language_query "asdkjasd" "ks" "java" ≠ "" ∧
    (stripStr (lowerStr "asdkjasd")).data <:+:
      (parse_natural_language_query "asdkjasd" "ks" "java").data ∧
    substr (parse_natural_language_query "asdkjasd" "ks" "java")
      "SELECT * FROM system.local" = true ∧
    hasSub "INSERT".data unknownPrefixChunk.data = false ∧
    hasSub "UPDATE".data unknownPrefixChunk.data = false ∧
    hasSub "DELETE".data unknownPrefixChunk.data = false ∧
    hasSub "INSERT".data unknownSuffixChunk.data = false ∧
    hasSub "UPDATE".data unknownSuffixChunk.data = false ∧
    hasSub "DELETE".data unknownSuffixChunk.data = false :=
  c8_unknown_fallback "asdkjasd" "ks" "java" (by decide) (by decide) (by decide)
    (by decide)

/-- C9: every identifier the extraction captures (after `table`, `into`,
`from`, or `key`) is a nonempty maximal run of word characters — it contains
no space or punctuation and stops at the first non-word character — so
`insert rows into my-orders` extracts table name `my`. -/
theorem c9_identifier_word_runs :
    (∀ kw l w, kwSearch kw isWordChar l = some w →
      w ≠ [] ∧ w.all isWordChar = true ∧ (∀ c ∈ w, isSpaceChar c = false) ∧
      ∃ pre sps suf, l = pre ++ (kw ++ (sps ++ (w ++ suf))) ∧
        (∀ c, suf.head? = some c → isWordChar c = false)) ∧
    (∀ kw1 kw2 l w, altSearch kw1 kw2 isWordChar l = some w →
      w ≠ [] ∧ w.all isWordChar = true ∧ (∀ c ∈ w, isSpaceChar c = false)) ∧
    biTableName ("insert rows into my-orders").data = "my" ∧
    parse_natural_language_query "insert rows into my-orders" "ks" "python" =
      bulkInsertPython "ks" "my" 10 := by
  refine ⟨?_, ?_, by decide, rfl⟩
  · intro kw l w h
    obtain ⟨h1, h2, pre, sps, suf, hdec, _, _, h5⟩ := kwSearch_eq_some h
    refine ⟨h1, h2, ?_, pre, sps, suf, hdec, h5⟩
    intro c hc
    exact word_not_space (List.all_eq_true.mp h2 c hc)
  · intro kw1 kw2 l w h
    obtain ⟨h1, h2, _⟩ := altSearch_eq_some h
    exact ⟨h1, h2, fun c hc => word_not_space (List.all_eq_true.mp h2 c hc)⟩

/-- Witness for C9: the run captured after `table` in `table orders`. -/
theorem c9_identifier_word_runs_witness :
    ("orders").data ≠ [] ∧ ("orders").data.all isWordChar = true ∧
    (∀ c ∈ ("orders").data, isSpaceChar c = false) ∧
    ∃ pre sps suf, ("table orders").data =
      pre ++ ("table".data ++ (sps ++ (("orders").data ++ suf))) ∧
      (∀ c, suf.head? = some c → isWordChar c = false) :=
  c9_identifier_word_runs.1 "table".data ("table orders").data ("orders").data
    (by decide)

/-- C10 counterexample: the keyspace is not inserted verbatim into every
template — the Unknown fallback template never references it. -/
theorem c10_keyspace_counterexample :
    substr (parse_natural_language_query "asdkjasd" "zx9qk" "python") "zx9qk" = false ∧
    parse_natural_language_query "asdkjasd" "zx9qk" "python" =
      unknownTemplate "asdkjasd" :=
  ⟨by decide, rfl⟩

/-- C10 (amended): substitution is purely textual with no escaping — a query
containing a double quote reaches the echoed assignment line of the fallback
template verbatim, terminating the generated string literal early — and the
keyspace is inserted verbatim into every recognized-category python template,
while the Unknown fallback template does not reference it. -/
theorem c10_verbatim_substitution :
    substr (parse_natural_language_query "say \"hi\" to zzz" "ks" "python")
      "query = \"say \"hi\" to zzz\"" = true ∧
    (∀ ks t p : String, ∀ n : Nat, ks.data <:+: (largePartitionPython ks t p n).data) ∧
    (∀ ks t : String, ks.data <:+: (lwtInsertPython ks t).data) ∧
    (∀ ks t : String, ks.data <:+: (lwtUpdatePython ks t).data) ∧
    (∀ ks t : String, ∀ n : Nat, ks.data <:+: (bulkInsertPython ks t n).data) ∧
    (∀ ks t : String, ks.data <:+: (selectCountPython ks t).data) ∧
    (∀ ks t : String, ∀ n : Nat, ks.data <:+: (selectRowsPython ks t n).data) := by
  refine ⟨by decide, ?_, ?_, ?_, ?_, ?_, ?_⟩
  · intro ks t p n
    simp only [largePartitionPython]
    exact mem_infix_cat _ _ (by simp)
  · intro ks t
    simp only [lwtInsertPython]
    exact mem_infix_cat _ _ (by simp)
  · intro ks t
    simp only [lwtUpdatePython]
    exact mem_infix_cat _ _ (by simp)
  · intro ks t n
    simp only [bulkInsertPython]
    exact mem_infix_cat _ _ (by simp)
  · intro ks t
    simp only [selectCountPython]
    exact mem_infix_cat _ _ (by simp)
  · intro ks t n
    simp only [selectRowsPython]
    exact mem_infix_cat _ _ (by simp)

end CassandraGen
